import Mathlib

/-!
Verification of the resilient browser-session automation layer of this
repository: a shallow embedding, in Lean, of the cookie store
(src/utils/cookie_manager.py), the retry wrapper and browser session
manager (src/tools/xiaohongshu_service.py), and the environment
detector / login-strategy selector (src/utils/environment.py), together
with theorems settling the testable properties of the spec over this embedding.
-/

namespace McpXhs

/-! ## Cookie store: src/utils/cookie_manager.py -/

/-- One cookie dictionary as handled by CookieManager.  The Python code
treats cookies as free-form dicts; the fields relevant to validation and
injection are the presence (and value) of the name, value and domain keys.
A field holding none embeds a dict with that key absent. -/
structure CookieRecord where
  name? : Option String
  value? : Option String
  domain? : Option String
  deriving Repr, DecidableEq

/-- CookieManager._validate_cookie: a cookie is valid when it contains both
a name key and a value key (presence only; emptiness is not checked). -/
def validate_cookie (c : CookieRecord) : Bool :=
  c.name?.isSome && c.value?.isSome

/-- The state of the cookie file at the configured path.  A bundle is the
JSON document written by save_cookies; unreadable covers an existing file
that cannot be opened or read, invalidJson a file whose content fails JSON
parsing. -/
inductive CookieFileState where
  | absent
  | unreadable
  | invalidJson
  | bundle (cookies : List CookieRecord) (timestamp : String) (domain : String)
  deriving Repr, DecidableEq

/-- CookieManager.save_cookies, successful path: the document written to the
configured path.  The code serializes the input list unchanged (no
filtering) together with a millisecond timestamp and the fixed domain
string. -/
def save_cookies (cookies : List CookieRecord) (now_ms : String) : CookieFileState :=
  .bundle cookies now_ms "xiaohongshu.com"

/-- CookieManager.load_cookies: none when the file is absent, unreadable or
not valid JSON; none when the cookies array is missing or empty; otherwise
the sublist of records passing _validate_cookie, or none when no record
passes. -/
def load_cookies : CookieFileState → Option (List CookieRecord)
  | .absent => none
  | .unreadable => none
  | .invalidJson => none
  | .bundle cookies _ _ =>
    if cookies.isEmpty then none
    else
      let valid := cookies.filter validate_cookie
      if valid.isEmpty then none else some valid

/-- Whether the configured cookie path exists on disk. -/
def path_exists : CookieFileState → Bool
  | .absent => false
  | _ => true

/-- CookieManager.clear_cookies: when the file exists it is unlinked (an
unlink error is caught and reported as false); a missing file is reported
as success with no change.  unlink_error says whether Path.unlink raises. -/
def clear_cookies (st : CookieFileState) (unlink_error : Bool) : Bool × CookieFileState :=
  if path_exists st then
    if unlink_error then (false, st) else (true, .absent)
  else
    (true, st)

/-- The filter that sentence P2 of the spec describes for save/load: records with
non-empty name and non-empty value.  Written from the words of the spec, for
comparison with what the code actually returns. -/
def spec_nonEmptyNameValue (c : CookieRecord) : Bool :=
  !(c.name?.getD "").isEmpty && !(c.value?.getD "").isEmpty

/-! ## Filesystem trace of save_cookies, for the atomicity claim -/

/-- Filesystem operations relevant to how save_cookies writes its document. -/
inductive FsOp where
  | mkdirParents (path : String)
  | openTrunc (path : String)
  | writeAll (path : String) (data : String)
  | rename (src : String) (dst : String)
  deriving Repr, DecidableEq

/-- Whether an operation is a rename. -/
def FsOp.isRename : FsOp → Bool
  | .rename _ _ => true
  | _ => false

/-- The sequence of filesystem operations performed by the successful path
of CookieManager.save_cookies, read off the source: mkdir the parent with
parents and exist_ok, open the configured path itself for writing (mode w,
which truncates), json.dump the document into that handle.  There is no
temporary file and no rename in the source. -/
def save_cookies_trace (path : String) (doc : String) : List FsOp :=
  [.mkdirParents path, .openTrunc path, .writeAll path doc]

/-- A flat filesystem: file contents by path. -/
def Fs : Type := String → Option String

/-- Effect of one operation on the filesystem. -/
def applyFsOp (fs : Fs) : FsOp → Fs
  | .mkdirParents _ => fs
  | .openTrunc p => fun q => if q = p then some "" else fs q
  | .writeAll p d => fun q => if q = p then some d else fs q
  | .rename src dst =>
    fun q => if q = dst then fs src else if q = src then none else fs q

/-- Run a trace of operations over a filesystem. -/
def runFs (ops : List FsOp) (fs : Fs) : Fs :=
  ops.foldl applyFsOp fs

/-- The empty filesystem. -/
def emptyFs : Fs := fun _ => none

/-- A concrete serialized cookie document, used as counterexample input. -/
def c2doc : String := "\x7b \"cookies\": [] \x7d"

/-- A concrete cookie whose value key is present but empty, used as
counterexample input to the save/load roundtrip claim. -/
def c1cookie : CookieRecord :=
  { name? := some "web_session", value? := some "", domain? := none }

/-! ## Retry middleware: retry_on_error in src/tools/xiaohongshu_service.py -/

/-- Observable trace of one run of the retry_on_error wrapper: the final
outcome (the value returned, or the exception re-raised after exhaustion),
the number of invocations of the reset hook (_reset_browser_state), and
the sequence of sleep durations in order. -/
structure RetryTrace (ε α : Type) where
  result : Except ε α
  resets : Nat
  sleeps : List Nat

/-- Loop body of retry_on_error, read off the source.  f a is the outcome
of invocation a of the wrapped coroutine; on success its value is
returned at once.  On a retryable exception with retries remaining the
wrapper invokes the reset hook of the target (hook a; its own outcome is
discarded — a failure of the hook is caught and only logged), sleeps
delay * (attempt + 1), and retries; with no retry remaining it re-raises
the last exception unchanged.  The second argument is the number of
retries remaining. -/
def retryAux (f : Nat → Except ε α) (hook : Nat → Except Unit Unit) (delay : Nat) :
    Nat → Nat → RetryTrace ε α
  | attempt, 0 =>
    match f attempt with
    | .ok v => ⟨.ok v, 0, []⟩
    | .error e => ⟨.error e, 0, []⟩
  | attempt, r + 1 =>
    match f attempt with
    | .ok v => ⟨.ok v, 0, []⟩
    | .error _ =>
      let rest := retryAux f hook delay (attempt + 1) r
      ⟨rest.result, rest.resets + 1, delay * (attempt + 1) :: rest.sleeps⟩

/-- retry_on_error with parameters max_retries and delay, applied to an
operation f on a target whose reset hook is hook: at most max_retries + 1
attempts starting from attempt 0. -/
def retry_on_error (f : Nat → Except ε α) (hook : Nat → Except Unit Unit)
    (max_retries delay : Nat) : RetryTrace ε α :=
  retryAux f hook delay 0 max_retries

/-! ## Session manager navigation: XiaohongshuService._safe_navigate -/

/-- Driver-lifecycle state as observed by _safe_navigate: whether a driver
handle is live, how many times a driver was created (the launch count of
_setup_driver via _ensure_driver), and how many navigation attempts
(driver.get calls) were made. -/
structure NavState where
  driver : Bool
  launches : Nat
  attempts : Nat
  deriving Repr, DecidableEq

/-- XiaohongshuService._ensure_driver: creates a driver exactly when no
handle is live; otherwise a no-op. -/
def ensure_driver (s : NavState) : NavState :=
  if s.driver then s else { s with driver := true, launches := s.launches + 1 }

/-- Outcome of _safe_navigate: a returned boolean, or a raised
XiaohongshuError. -/
inductive NavResult where
  | ok (success : Bool)
  | errorRaised
  deriving Repr, DecidableEq

/-- Loop of XiaohongshuService._safe_navigate, read off the source.  nav a
says whether the driver.get call of attempt a succeeds.  Each iteration
first runs _ensure_driver, then navigates: on success it returns true with
the driver left live; on a failure with iterations remaining it quits and
nulls the driver (so the next iteration re-creates it from scratch) and
retries after a sleep; on a failure in the last iteration it raises, the
driver left live.  The ok false fall-through is the loop body never
running (max_retries = 0). -/
def safeNavAux (nav : Nat → Bool) : Nat → Nat → NavState → NavResult × NavState
  | _, 0, s => (.ok false, s)
  | a, r + 1, s =>
    let s1 := ensure_driver s
    let s2 := { s1 with attempts := s1.attempts + 1 }
    if nav a then (.ok true, s2)
    else if r = 0 then (.errorRaised, s2)
    else safeNavAux nav (a + 1) r { s2 with driver := false }

/-- XiaohongshuService._safe_navigate with max_retries total attempts. -/
def safe_navigate (nav : Nat → Bool) (max_retries : Nat) (s : NavState) :
    NavResult × NavState :=
  safeNavAux nav 0 max_retries s

/-- Operation failing on its first two invocations, then succeeding:
concrete input for the retry-wrapper claim. -/
def c3f : Nat → Except Nat Nat := fun i => if i < 2 then .error i else .ok 42

/-- Operation failing on every invocation: concrete input for the
retry-wrapper claim. -/
def c3g : Nat → Except Nat Nat := fun i => .error i

/-- A reset hook that itself always fails. -/
def c3hookFailing : Nat → Except Unit Unit := fun _ => .error ()

/-- A reset hook that always succeeds. -/
def c3hookOk : Nat → Except Unit Unit := fun _ => .ok ()

/-- Navigation succeeding only on attempt 1: concrete input for the
safe-navigate claim. -/
def c4nav1 : Nat → Bool := fun i => i == 1

/-- Navigation failing on every attempt: concrete input for the
safe-navigate claim. -/
def c4nav2 : Nat → Bool := fun _ => false

/-! ## Environment detector and strategy selector: src/utils/environment.py -/

/-- Python str.endswith, taken over the character list of the string. -/
def str_ends_with (s suffix : String) : Bool :=
  List.isSuffixOf suffix.data s.data

/-- Python str.startswith, taken over the character list of the string. -/
def str_starts_with (s p : String) : Bool :=
  List.isPrefixOf p.data s.data

/-- Python truthiness of an optional environment-variable string: set and
non-empty. -/
def pyTruthy (o : Option String) : Bool :=
  !(o.getD "" == "")

/-- The host facts the environment detector reads: environment variables,
the platform id, the filesystem probe used on the candidate browser
paths, the PATH lookup (shutil.which) and the outcome of running a
candidate binary with --version (returncode 0 within the timeout; any
exception reads as false). -/
structure World where
  display : Option String
  wayland_display : Option String
  platform : String
  is_executable_file : String → Bool
  which_path : String → Option String
  chrome_version_ok : String → Bool

/-- EnvironmentDetector.has_gui: DISPLAY or WAYLAND_DISPLAY set, or a
Windows or macOS platform. -/
def has_gui (w : World) : Bool :=
  pyTruthy w.display || pyTruthy w.wayland_display
    || str_starts_with w.platform "win" || w.platform == "darwin"

/-- The fixed ordered list of well-known Chrome/Chromium install
locations scanned by find_chrome_binary. -/
def chrome_possible_paths : List String :=
  [ "/usr/bin/google-chrome"
  , "/usr/bin/google-chrome-stable"
  , "/usr/bin/chromium-browser"
  , "/usr/bin/chromium"
  , "/opt/google/chrome/google-chrome"
  , "/snap/bin/chromium"
  , "/snap/bin/chrome"
  , "/var/lib/flatpak/app/com.google.Chrome/current/active/export/bin/com.google.Chrome"
  , "/Applications/Google Chrome.app/Contents/MacOS/Google Chrome"
  , "C:\\Program Files\\Google\\Chrome\\Application\\chrome.exe"
  , "C:\\Program Files (x86)\\Google\\Chrome\\Application\\chrome.exe" ]

/-- The PATH lookups tried when no well-known location matches. -/
def chrome_which_candidates : List String :=
  ["google-chrome", "google-chrome-stable", "chromium-browser", "chromium"]

/-- EnvironmentDetector.find_chrome_binary: first executable file among the
well-known locations, else the first hit of shutil.which over the command
candidates. -/
def find_chrome_binary (w : World) : Option String :=
  match chrome_possible_paths.find? w.is_executable_file with
  | some p => some p
  | none => chrome_which_candidates.findSome? w.which_path

/-- The ordered package-manager candidates checked by can_install_chrome
and get_package_manager. -/
def package_managers : List String :=
  ["apt-get", "yum", "dnf", "pacman", "zypper"]

/-- EnvironmentDetector.can_install_chrome: some package manager is on
PATH. -/
def can_install_chrome (w : World) : Bool :=
  package_managers.any (fun pm => (w.which_path pm).isSome)

/-- EnvironmentDetector.get_package_manager: the first package manager on
PATH. -/
def get_package_manager (w : World) : Option String :=
  package_managers.find? (fun pm => (w.which_path pm).isSome)

/-- EnvironmentDetector.test_chrome_functionality at a path: the --version
run exits 0 (any failure, including timeout, reads false). -/
def test_chrome_functionality (w : World) (chrome_path : String) : Bool :=
  w.chrome_version_ok chrome_path

/-- The environment snapshot assembled by
EnvironmentDetector.get_environment_info (the fields consumed by the
strategy selector and the service). -/
structure EnvInfo where
  platform : String
  has_gui : Bool
  chrome_path : Option String
  chrome_works : Bool
  can_install_chrome : Bool
  package_manager : Option String
  deriving Repr, DecidableEq

/-- EnvironmentDetector.get_environment_info: one point-in-time read of the
host. -/
def get_environment_info (w : World) : EnvInfo :=
  let chrome_path := find_chrome_binary w
  { platform := w.platform
    has_gui := has_gui w
    chrome_path := chrome_path
    chrome_works :=
      match chrome_path with
      | some p => test_chrome_functionality w p
      | none => false
    can_install_chrome := can_install_chrome w
    package_manager := get_package_manager w }

/-- The login methods named by the selector. -/
inductive LoginMethod where
  | interactive_browser
  | qr_code
  | manual_cookie_import
  | remote_browser
  | install_chrome
  deriving Repr, DecidableEq

/-- The recommendation value built by get_login_recommendations.  The two
instruction payloads are static texts; the model keeps their presence. -/
structure LoginRecommendation where
  primary_method : Option LoginMethod
  alternative_methods : List LoginMethod
  notes : List String
  has_install_instructions : Bool
  has_manual_instructions : Bool
  deriving Repr, DecidableEq

/-- EnvironmentDetector.get_login_recommendations, branch logic over a
given snapshot, read off the source: four if/elif branches evaluated
top-down. -/
def login_recommendations_of (e : EnvInfo) : LoginRecommendation :=
  if e.chrome_works && e.has_gui then
    { primary_method := some .interactive_browser
      alternative_methods := [.manual_cookie_import, .qr_code]
      notes := ["完整的浏览器环境支持", "推荐使用交互式浏览器登录"]
      has_install_instructions := false
      has_manual_instructions := false }
  else if e.chrome_works && !e.has_gui then
    { primary_method := some .qr_code
      alternative_methods := [.manual_cookie_import, .remote_browser]
      notes := ["检测到终端环境（无GUI）", "推荐使用二维码登录"]
      has_install_instructions := false
      has_manual_instructions := false }
  else if e.can_install_chrome && pyTruthy e.package_manager then
    { primary_method := some .install_chrome
      alternative_methods := [.manual_cookie_import, .remote_browser]
      notes := ["未检测到 Chrome 浏览器", "可以自动安装 Chromium"]
      has_install_instructions := true
      has_manual_instructions := false }
  else
    { primary_method := some .manual_cookie_import
      alternative_methods := [.remote_browser]
      notes := ["无法使用浏览器自动登录", "请使用手动 Cookie 导入"]
      has_install_instructions := false
      has_manual_instructions := true }

/-- EnvironmentDetector.get_login_recommendations: takes a fresh snapshot
and applies the branch logic. -/
def get_login_recommendations (w : World) : LoginRecommendation :=
  login_recommendations_of (get_environment_info w)

/-- Modelled from the spec: the four-branch decision table of §4.2, as
written in the spec (primary method and ordered alternatives per branch),
for comparison with the selector in the code.  The install_browser
strategy of the spec is the install_chrome method of the code. -/
def spec_recommend (gui functional installable : Bool) :
    LoginMethod × List LoginMethod :=
  if gui && functional then
    (.interactive_browser, [.manual_cookie_import, .qr_code])
  else if functional && !gui then
    (.qr_code, [.manual_cookie_import, .remote_browser])
  else if !functional && installable then
    (.install_chrome, [.manual_cookie_import, .remote_browser])
  else
    (.manual_cookie_import, [.remote_browser])

/-- Branch condition 1 of the decision table in the spec. -/
def branch1 (e : EnvInfo) : Bool := e.has_gui && e.chrome_works

/-- Branch condition 2 of the decision table in the spec. -/
def branch2 (e : EnvInfo) : Bool := e.chrome_works && !e.has_gui

/-- Branch condition 3 of the decision table in the spec. -/
def branch3 (e : EnvInfo) : Bool := !e.chrome_works && e.can_install_chrome

/-- Branch condition 4 (the else branch) of the decision table in the spec. -/
def branch4 (e : EnvInfo) : Bool := !e.chrome_works && !e.can_install_chrome

/-! ## Service configuration: XiaohongshuConfig and
_setup_environment_config -/

/-- XiaohongshuConfig from src/tools/xiaohongshu_models.py with its
defaults. -/
structure XiaohongshuConfig where
  headless : Bool := true
  browser_path : Option String := none
  user_agent : String := "Mozilla/5.0 (Windows NT 10.0; Win64; x64) AppleWebKit/537.36"
  timeout : Nat := 30
  max_images_per_post : Nat := 9
  max_title_length : Nat := 20
  max_content_length : Nat := 1000
  deriving Repr, DecidableEq

/-- XiaohongshuService._setup_environment_config: when the environment has
no GUI the headless flag of the config is forced to true; otherwise the
caller-supplied config is kept unchanged. -/
def setup_environment_config (env : EnvInfo) (config : XiaohongshuConfig) :
    XiaohongshuConfig :=
  if !env.has_gui then { config with headless := true } else config

/-! ## Login wait loop: XiaohongshuService.wait_for_login -/

/-- Loop of XiaohongshuService.wait_for_login, read off the source.  One
unit of model time is one second of wall clock, and only the sleeps
advance it.  poll i is what the i-th check_login_status call yields: a
status or an escaping exception.  A poll observing logged-in exits at once
with true; a logged-out reading or an exception sleeps check_interval
seconds and loops; once the elapsed time reaches the timeout the loop
exits with false.  fuel only bounds the recursion and is chosen so it
never runs out for the given timeout. -/
def waitLoop (poll : Nat → Except Unit Bool) (timeout_seconds check_interval : Nat) :
    Nat → Nat → Nat → Bool
  | 0, _, _ => false
  | fuel + 1, i, elapsed =>
    if elapsed < timeout_seconds then
      match poll i with
      | .ok true => true
      | .ok false =>
        waitLoop poll timeout_seconds check_interval fuel (i + 1) (elapsed + check_interval)
      | .error _ =>
        waitLoop poll timeout_seconds check_interval fuel (i + 1) (elapsed + check_interval)
    else false

/-- XiaohongshuService.wait_for_login: the polling loop with its fixed
2-second check interval (the outer exception handler returns false, so the
result is a total boolean). -/
def wait_for_login (poll : Nat → Except Unit Bool) (timeout_seconds : Nat) : Bool :=
  waitLoop poll timeout_seconds 2 (timeout_seconds + 1) 0 0

/-- The logged-in reading a poll outcome amounts to: an exception during a
single poll reads as logged-out. -/
def pollReading : Except Unit Bool → Bool
  | .ok b => b
  | .error _ => false

/-! ## Cleanup: XiaohongshuService.cleanup -/

/-- State touched by XiaohongshuService.cleanup: the driver handle, the
recorded user-data directory, and the directories existing on disk. -/
structure CleanupState where
  driver : Bool
  temp_user_data_dir : Option String
  dirs : List String
  deriving Repr, DecidableEq

/-- The name suffix of the persistent profile directory
(xiaohongshu_chrome_persistent under the system temp directory). -/
def persistent_suffix : String := "xiaohongshu_chrome_persistent"

/-- XiaohongshuService.cleanup, read off the source.  quit_fails says
whether driver.quit raises; that exception is caught and logged, and the
handle is nulled in the finally block either way.  The recorded user-data
directory is then removed (rmtree with ignore_errors) only when it is set,
non-empty and does not end with the persistent suffix; the persistent
profile directory is deliberately kept.  Finally the recorded directory is
cleared.  Every internal exception is handled: the function has no failure
outcome. -/
def cleanup (s : CleanupState) (quit_fails : Bool) : CleanupState :=
  let s1 := if s.driver then { s with driver := false } else s
  let s2 :=
    match s1.temp_user_data_dir with
    | some d =>
      if !(d == "") && !(str_ends_with d persistent_suffix) then
        { s1 with dirs := s1.dirs.filter (fun p => p != d) }
      else s1
    | none => s1
  { s2 with temp_user_data_dir := none }

/-! ## Concrete inputs for witnesses -/

/-- A headless Linux host with a working chromium on disk and no package
manager: concrete input for the strategy-selector claim. -/
def c5world : World :=
  { display := none
    wayland_display := none
    platform := "linux"
    is_executable_file := fun p => p == "/usr/bin/chromium"
    which_path := fun _ => none
    chrome_version_ok := fun _ => true }

/-- A no-GUI snapshot: concrete input for the forced-headless claim. -/
def c6env : EnvInfo :=
  { platform := "linux"
    has_gui := false
    chrome_path := none
    chrome_works := false
    can_install_chrome := false
    package_manager := none }

/-- A service state holding a live driver and the persistent profile
directory: concrete input for the cleanup claim. -/
def c8state : CleanupState :=
  { driver := true
    temp_user_data_dir := some "/tmp/xiaohongshu_chrome_persistent"
    dirs := ["/tmp/xiaohongshu_chrome_persistent"] }

/-! ## Theorems -/

/-- C1: the claim as stated is false on the code.  save_cookies does not
filter, and load_cookies validates only key presence, so a record with an
empty value survives the roundtrip: for the input [c1cookie] the roundtrip
returns [c1cookie] itself, while the subset of inputs with non-empty name
and value is empty. -/
theorem C1_roundtrip_counterexample :
    load_cookies (save_cookies [c1cookie] "0") = some [c1cookie]
    ∧ [c1cookie].filter spec_nonEmptyNameValue = []
    ∧ load_cookies (save_cookies [c1cookie] "0")
        ≠ some ([c1cookie].filter spec_nonEmptyNameValue) := by
  refine ⟨rfl, rfl, ?_⟩
  decide

/-- C1 (amended): save_cookies writes the input records unchanged, and
load_cookies then returns exactly the subset of the input records that
contain both a name key and a value key (non-emptiness is not required),
in their original order — except that when that subset is empty it returns
none rather than the empty list. -/
theorem C1_roundtrip_amended (cookies : List CookieRecord) (ts : String) :
    load_cookies (save_cookies cookies ts) =
      if (cookies.filter validate_cookie).isEmpty then none
      else some (cookies.filter validate_cookie) := by
  unfold save_cookies load_cookies
  rcases h : cookies with _ | ⟨c, cs⟩
  · simp
  · simp only [List.isEmpty_cons, if_false]
    rfl

/-- C9: clear_cookies on a missing file returns success and changes
nothing; on an existing file with a working unlink it deletes the file and
returns success; it returns failure exactly when the file exists and the
unlink raises (and then the file is untouched). -/
theorem C9_clear_cookies (st : CookieFileState) (err : Bool) :
    (path_exists st = false → clear_cookies st err = (true, st))
    ∧ (path_exists st = true → err = false → clear_cookies st err = (true, .absent))
    ∧ ((clear_cookies st err).1 = false ↔ (path_exists st = true ∧ err = true))
    ∧ ((clear_cookies st err).1 = false → (clear_cookies st err).2 = st) := by
  unfold clear_cookies
  rcases st <;> rcases err <;> simp [path_exists]

/-- C9 witness: clearing when the file is absent succeeds and is a no-op,
and clearing an existing bundle with a failing unlink reports failure. -/
theorem C9_clear_cookies_witness :
    clear_cookies .absent false = (true, .absent)
    ∧ clear_cookies (.bundle [c1cookie] "0" "xiaohongshu.com") false
        = (true, .absent) := by
  refine ⟨(C9_clear_cookies .absent false).1 rfl, ?_⟩
  exact (C9_clear_cookies (.bundle [c1cookie] "0" "xiaohongshu.com") false).2.1 rfl rfl

/-- C10: load_cookies never returns the empty list: whenever it returns a
list, the list is non-empty and every returned record contains both a name
and a value key; and each degenerate file state (absent, unreadable,
invalid JSON, empty cookie array, no valid record) yields none. -/
theorem C10_load_cookies_never_empty (st : CookieFileState)
    (l : List CookieRecord) (h : load_cookies st = some l) :
    l ≠ [] ∧ l.all validate_cookie = true := by
  cases st with
  | absent => exact absurd h (by simp [load_cookies])
  | unreadable => exact absurd h (by simp [load_cookies])
  | invalidJson => exact absurd h (by simp [load_cookies])
  | bundle cookies ts d =>
    simp only [load_cookies] at h
    by_cases h0 : cookies.isEmpty
    · simp [h0] at h
    · by_cases h1 : (cookies.filter validate_cookie).isEmpty
      · simp [h0, h1] at h
      · simp [h0, h1] at h
        subst h
        refine ⟨fun hnil => h1 (by simp [hnil]), ?_⟩
        rw [List.all_eq_true]
        intro c hc
        exact (List.mem_filter.mp hc).2

/-- C10 witness: a bundle holding one keyed record and one record missing
its value key loads as the non-empty all-valid sublist. -/
theorem C10_load_cookies_never_empty_witness :
    [c1cookie] ≠ [] ∧ [c1cookie].all validate_cookie = true :=
  C10_load_cookies_never_empty
    (.bundle [c1cookie, { name? := some "x", value? := none, domain? := none }]
      "0" "xiaohongshu.com")
    [c1cookie] (by decide)

/-- C2: the claim is false on the code.  save_cookies performs no rename at
all — there is no temp-file-then-rename sequence in the source — and the
execution interrupted between the truncating open of the configured path
and the completed write leaves a half-written (here empty) file visible at
that path, different from the document being saved. -/
theorem C2_atomic_save_counterexample :
    (save_cookies_trace "cookies.json" c2doc).any FsOp.isRename = false
    ∧ runFs ((save_cookies_trace "cookies.json" c2doc).take 2) emptyFs "cookies.json"
        = some ""
    ∧ some "" ≠ some c2doc := by
  refine ⟨rfl, ?_, by decide⟩
  simp [save_cookies_trace, runFs, applyFsOp, emptyFs]

/-- C2 (amended): save_cookies writes the document in place, not
atomically: it creates the parent directory, opens the configured path
itself for writing (truncating whatever is there) and writes the
serialized document into that handle.  The trace contains no rename; a
completed save leaves exactly the document at the path; an execution
interrupted after the truncating open leaves an empty file visible at the
configured path. -/
theorem C2_atomic_save_amended (path doc : String) (fs : Fs) :
    (save_cookies_trace path doc).any FsOp.isRename = false
    ∧ runFs (save_cookies_trace path doc) fs path = some doc
    ∧ runFs ((save_cookies_trace path doc).take 2) fs path = some "" := by
  refine ⟨rfl, ?_, ?_⟩ <;> simp [save_cookies_trace, runFs, applyFsOp]

/-- Helper: the retry trace does not depend on the outcomes of the reset hook —
the wrapper catches and discards whatever the hook does. -/
theorem retryAux_hook_irrelevant (f : Nat → Except ε α)
    (hook hook2 : Nat → Except Unit Unit) (delay : Nat) :
    ∀ r a, retryAux f hook delay a r = retryAux f hook2 delay a r := by
  intro r
  induction r with
  | zero => intro a; rfl
  | succ r ih =>
    intro a
    simp only [retryAux]
    cases f a with
    | ok v => rfl
    | error e => simp [ih]

/-- Helper: when invocations a, …, a+k-1 all raise retryable errors and
invocation a+k succeeds, the wrapper (entered with k retries remaining)
returns the success value, invokes the reset hook once per failure, and
sleeps delay * (attempt + 1) before each retry. -/
theorem retryAux_succeeds (f : Nat → Except ε α) (hook : Nat → Except Unit Unit)
    (delay : Nat) (v : α) (es : Nat → ε) :
    ∀ k a, (∀ i, i < k → f (a + i) = .error (es (a + i))) → f (a + k) = .ok v →
    retryAux f hook delay a k
      = ⟨.ok v, k, (List.range k).map (fun i => delay * (a + i + 1))⟩ := by
  intro k
  induction k with
  | zero =>
    intro a _ hok
    simp only [Nat.add_zero] at hok
    simp [retryAux, hok]
  | succ k ih =>
    intro a hfail hok
    have ha : f a = .error (es a) := by
      have := hfail 0 (Nat.succ_pos k)
      simpa using this
    have hrest := ih (a + 1)
      (fun i hi => by
        have := hfail (i + 1) (by omega)
        simpa [Nat.add_assoc, Nat.add_comm 1 i] using this)
      (by
        have : a + 1 + k = a + (k + 1) := by omega
        rw [this]; exact hok)
    simp only [retryAux, ha, hrest]
    refine congrArg (RetryTrace.mk (.ok v) (k + 1)) ?_
    rw [List.range_succ_eq_map, List.map_cons, List.map_map]
    refine congrArg₂ List.cons (by simp) ?_
    exact List.map_congr_left (fun i _ => by
      simp only [Function.comp_apply]
      congr 1
      omega)

/-- Helper: when invocations a, …, a+k all raise retryable errors, the
wrapper (entered with k retries remaining) re-raises the last error
unchanged after k reset-hook invocations and the linearly growing
sleeps. -/
theorem retryAux_all_fail (f : Nat → Except ε α) (hook : Nat → Except Unit Unit)
    (delay : Nat) (es : Nat → ε) :
    ∀ k a, (∀ i, i ≤ k → f (a + i) = .error (es (a + i))) →
    retryAux f hook delay a k
      = ⟨.error (es (a + k)), k, (List.range k).map (fun i => delay * (a + i + 1))⟩ := by
  intro k
  induction k with
  | zero =>
    intro a hfail
    have ha : f a = .error (es a) := by simpa using hfail 0 (Nat.le_refl 0)
    simp [retryAux, ha]
  | succ k ih =>
    intro a hfail
    have ha : f a = .error (es a) := by simpa using hfail 0 (Nat.zero_le _)
    have hrest := ih (a + 1)
      (fun i hi => by
        have := hfail (i + 1) (by omega)
        simpa [Nat.add_assoc, Nat.add_comm 1 i] using this)
    simp only [retryAux, ha, hrest]
    have hlast : a + 1 + k = a + (k + 1) := by omega
    rw [hlast]
    refine congrArg (RetryTrace.mk (.error (es (a + (k + 1)))) (k + 1)) ?_
    rw [List.range_succ_eq_map, List.map_cons, List.map_map]
    refine congrArg₂ List.cons (by simp) ?_
    exact List.map_congr_left (fun i _ => by
      simp only [Function.comp_apply]
      congr 1
      omega)

/-- C3: the retry wrapper with parameters max_retries = m and base delay:
an operation f failing retryably on its first m invocations and
succeeding on invocation m returns the success value with the reset hook
invoked exactly m times and the sleep before the retry after attempt i
equal to delay * (i + 1); a hook failure is swallowed (the trace does not
depend on the outcomes of the hook); an operation g failing on all m + 1
invocations makes the wrapper re-raise the last failure unchanged. -/
theorem C3_retry_wrapper (m delay : Nat) (v : Nat)
    (f g : Nat → Except Nat Nat) (hook hook2 : Nat → Except Unit Unit)
    (es : Nat → Nat)
    (hfail : ∀ i, i < m → f i = .error (es i))
    (hok : f m = .ok v)
    (hgfail : ∀ i, i ≤ m → g i = .error (es i)) :
    retry_on_error f hook m delay
      = ⟨.ok v, m, (List.range m).map (fun i => delay * (i + 1))⟩
    ∧ retry_on_error g hook m delay
      = ⟨.error (es m), m, (List.range m).map (fun i => delay * (i + 1))⟩
    ∧ retry_on_error f hook m delay = retry_on_error f hook2 m delay := by
  refine ⟨?_, ?_, retryAux_hook_irrelevant f hook hook2 delay m 0⟩
  · have := retryAux_succeeds f hook delay v es m 0
      (fun i hi => by simpa using hfail i hi) (by simpa using hok)
    simpa [retry_on_error] using this
  · have := retryAux_all_fail g hook delay es m 0
      (fun i hi => by simpa using hgfail i hi)
    simpa [retry_on_error] using this

/-- C3 witness: with max_retries = 2 and delay = 1, an operation failing
twice then returning 42 yields 42 after exactly 2 reset-hook invocations
and sleeps [1, 2]; an always-failing operation makes the wrapper re-raise
the last (third) error; and a failing hook changes nothing. -/
theorem C3_retry_wrapper_witness :
    retry_on_error c3f c3hookFailing 2 1 = ⟨.ok 42, 2, [1, 2]⟩
    ∧ retry_on_error c3g c3hookFailing 2 1 = ⟨.error 2, 2, [1, 2]⟩
    ∧ retry_on_error c3f c3hookFailing 2 1 = retry_on_error c3f c3hookOk 2 1 := by
  have h := C3_retry_wrapper 2 1 42 c3f c3g c3hookFailing c3hookOk (fun i => i)
    (fun i hi => by interval_cases i <;> rfl) rfl
    (fun i hi => by interval_cases i <;> rfl)
  simpa [List.range_succ] using h

/-- Helper: entered with no live driver and r + 1 attempts remaining, all
of which fail, _safe_navigate raises after exactly r + 1 further attempts,
each of which re-created the driver from scratch (one launch per attempt,
because every failed non-final attempt quits and nulls the handle). -/
theorem safeNavAux_all_fail (nav : Nat → Bool) :
    ∀ r a sl sa, (∀ i, a ≤ i → i < a + (r + 1) → nav i = false) →
    safeNavAux nav a (r + 1) ⟨false, sl, sa⟩
      = (.errorRaised, ⟨true, sl + (r + 1), sa + (r + 1)⟩) := by
  intro r
  induction r with
  | zero =>
    intro a sl sa hfail
    have ha : nav a = false := hfail a (Nat.le_refl a) (by omega)
    simp [safeNavAux, ensure_driver, ha]
  | succ r ih =>
    intro a sl sa hfail
    have ha : nav a = false := hfail a (Nat.le_refl a) (by omega)
    have hrest := ih (a + 1) (sl + 1) (sa + 1)
      (fun i hi hi2 => hfail i (by omega) (by omega))
    rw [safeNavAux]
    simp only [ensure_driver, ha, Bool.false_eq_true, if_false]
    rw [if_neg (Nat.succ_ne_zero r), hrest]
    congr 2 <;> omega

/-- Helper: entered with no live driver, with attempts a … a+k-1 failing
and attempt a+k succeeding within the remaining budget, _safe_navigate
returns true right at attempt a+k, having launched the driver k + 1 times
(once per attempt, since each failure tears the driver down). -/
theorem safeNavAux_succeeds (nav : Nat → Bool) :
    ∀ k m a sl sa, k < m →
    (∀ i, a ≤ i → i < a + k → nav i = false) → nav (a + k) = true →
    safeNavAux nav a m ⟨false, sl, sa⟩
      = (.ok true, ⟨true, sl + (k + 1), sa + (k + 1)⟩) := by
  intro k
  induction k with
  | zero =>
    intro m a sl sa hk _ hok
    obtain ⟨m', rfl⟩ : ∃ m', m = m' + 1 := ⟨m - 1, by omega⟩
    have ha : nav a = true := by simpa using hok
    simp [safeNavAux, ensure_driver, ha]
  | succ k ih =>
    intro m a sl sa hk hfail hok
    obtain ⟨m', rfl⟩ : ∃ m', m = m' + 1 := ⟨m - 1, by omega⟩
    have ha : nav a = false := hfail a (Nat.le_refl a) (by omega)
    have hrest := ih m' (a + 1) (sl + 1) (sa + 1) (by omega)
      (fun i hi hi2 => hfail i (by omega) (by omega))
      (by
        have h' : a + 1 + k = a + (k + 1) := by omega
        rw [h']; exact hok)
    rw [safeNavAux]
    simp only [ensure_driver, ha, Bool.false_eq_true, if_false]
    rw [if_neg (by omega : ¬m' = 0), hrest]
    congr 2 <;> omega

/-- C4: _safe_navigate with max_attempts = n ≥ 1, started with no live
driver.  When attempt k (k < n) is the first to succeed, it returns true
at that attempt, having made k + 1 attempts and created the driver k + 1
times — each failed non-final attempt tore down and nulled the handle, so
every following attempt rebuilt the session from scratch via
_ensure_driver.  When every attempt fails, it makes exactly n attempts
(with n launches, one per attempt) and then raises. -/
theorem C4_safe_navigate (n k : Nat) (nav1 nav2 : Nat → Bool)
    (hn : 1 ≤ n) (hk : k < n)
    (h1fail : ∀ i, i < k → nav1 i = false) (h1ok : nav1 k = true)
    (h2fail : ∀ i, i < n → nav2 i = false) :
    safe_navigate nav1 n ⟨false, 0, 0⟩ = (.ok true, ⟨true, k + 1, k + 1⟩)
    ∧ safe_navigate nav2 n ⟨false, 0, 0⟩ = (.errorRaised, ⟨true, n, n⟩) := by
  constructor
  · have := safeNavAux_succeeds nav1 k n 0 0 0 hk
      (fun i _ hi2 => h1fail i (by omega)) (by simpa using h1ok)
    simpa [safe_navigate] using this
  · obtain ⟨r, rfl⟩ : ∃ r, n = r + 1 := ⟨n - 1, by omega⟩
    have := safeNavAux_all_fail nav2 r 0 0 0 (fun i _ hi2 => h2fail i (by omega))
    simpa [safe_navigate] using this

/-- C4 witness: with 3 attempts, a navigation succeeding only at attempt 1
returns true after 2 attempts and 2 launches, and an always-failing
navigation raises after exactly 3 attempts and 3 launches. -/
theorem C4_safe_navigate_witness :
    safe_navigate c4nav1 3 ⟨false, 0, 0⟩ = (.ok true, ⟨true, 2, 2⟩)
    ∧ safe_navigate c4nav2 3 ⟨false, 0, 0⟩ = (.errorRaised, ⟨true, 3, 3⟩) :=
  C4_safe_navigate 3 1 c4nav1 c4nav2 (by decide) (by decide)
    (fun i hi => by interval_cases i; rfl) rfl
    (fun i hi => by interval_cases i <;> rfl)

/-- Helper: among the snapshots actually produced by
get_environment_info, the package_manager field is truthy exactly when
can_install_chrome is set — both read the same PATH lookups in the same
order, and every candidate name is non-empty. -/
theorem pm_coupling (w : World) :
    pyTruthy (get_package_manager w) = can_install_chrome w := by
  unfold get_package_manager can_install_chrome package_managers
  cases h1 : (w.which_path "apt-get").isSome <;>
  cases h2 : (w.which_path "yum").isSome <;>
  cases h3 : (w.which_path "dnf").isSome <;>
  cases h4 : (w.which_path "pacman").isSome <;>
  cases h5 : (w.which_path "zypper").isSome <;>
    simp [List.find?, h1, h2, h3, h4, h5, pyTruthy]

/-- Helper: over any snapshot whose package_manager truthiness agrees with
its can_install_chrome flag, the four if/elif branches of the code produce
exactly the primary method and ordered alternatives of the decision
table in the spec. -/
theorem recommendations_follow_table (e : EnvInfo)
    (hc : pyTruthy e.package_manager = e.can_install_chrome) :
    (login_recommendations_of e).primary_method
      = some (spec_recommend e.has_gui e.chrome_works e.can_install_chrome).1
    ∧ (login_recommendations_of e).alternative_methods
      = (spec_recommend e.has_gui e.chrome_works e.can_install_chrome).2 := by
  rcases e with ⟨pf, hg, cp, cw, ci, pm⟩
  simp only at hc
  cases hg <;> cases cw <;> cases ci <;>
    simp [login_recommendations_of, spec_recommend, hc]

/-- Helper: every snapshot satisfies exactly one of the four branch
conditions of the decision table. -/
theorem branch_partition (e : EnvInfo) :
    (branch1 e).toNat + (branch2 e).toNat + (branch3 e).toNat
      + (branch4 e).toNat = 1 := by
  rcases e with ⟨pf, hg, cp, cw, ci, pm⟩
  cases hg <;> cases cw <;> cases ci <;> rfl

/-- C5: the login-strategy recommendation is a pure function of the
environment snapshot implementing the four-branch decision table of the spec
top-down: on every snapshot the detector produces, the primary method and
ordered alternatives equal those of the table; the recommendation is never empty
(primary set, alternatives non-empty); a snapshot with browser functional
and no GUI yields primary qr_code with alternatives
[manual_cookie_import, remote_browser]; every snapshot falls into exactly
one branch; and evaluation on an identical snapshot is identical. -/
theorem C5_login_strategy (w : World) :
    ((get_login_recommendations w).primary_method
        = some (spec_recommend (get_environment_info w).has_gui
            (get_environment_info w).chrome_works
            (get_environment_info w).can_install_chrome).1
      ∧ (get_login_recommendations w).alternative_methods
        = (spec_recommend (get_environment_info w).has_gui
            (get_environment_info w).chrome_works
            (get_environment_info w).can_install_chrome).2)
    ∧ (get_login_recommendations w).primary_method ≠ none
    ∧ (get_login_recommendations w).alternative_methods ≠ []
    ∧ ((get_environment_info w).has_gui = false →
        (get_environment_info w).chrome_works = true →
        (get_login_recommendations w).primary_method = some .qr_code
        ∧ (get_login_recommendations w).alternative_methods
            = [.manual_cookie_import, .remote_browser])
    ∧ (∀ e : EnvInfo,
        (branch1 e).toNat + (branch2 e).toNat + (branch3 e).toNat
          + (branch4 e).toNat = 1)
    ∧ get_login_recommendations w = get_login_recommendations w := by
  have hc : pyTruthy (get_environment_info w).package_manager
      = (get_environment_info w).can_install_chrome := by
    simpa [get_environment_info] using pm_coupling w
  obtain ⟨h1, h2⟩ := recommendations_follow_table (get_environment_info w) hc
  simp only [get_login_recommendations]
  refine ⟨⟨h1, h2⟩, ?_, ?_, ?_, fun e => branch_partition e, by trivial⟩
  · rw [h1]; simp
  · rw [h2]
    cases (get_environment_info w).has_gui <;>
      cases (get_environment_info w).chrome_works <;>
      cases (get_environment_info w).can_install_chrome <;>
      simp [spec_recommend]
  · intro hgui hcw
    constructor
    · rw [h1, hgui, hcw]; simp [spec_recommend]
    · rw [h2, hgui, hcw]; simp [spec_recommend]

/-- C5 witness: on a headless Linux host with a working chromium binary,
the recommendation is qr_code with alternatives [manual_cookie_import,
remote_browser]. -/
theorem C5_login_strategy_witness :
    (get_login_recommendations c5world).primary_method = some .qr_code
    ∧ (get_login_recommendations c5world).alternative_methods
        = [.manual_cookie_import, .remote_browser] :=
  (C5_login_strategy c5world).2.2.2.1 (by decide) (by decide)

/-- C6: when the environment snapshot reports no GUI, the effective
headless flag after _setup_environment_config is true regardless of the
caller-supplied headless value of the config. -/
theorem C6_forced_headless (env : EnvInfo) (config : XiaohongshuConfig)
    (h : env.has_gui = false) :
    (setup_environment_config env config).headless = true := by
  simp [setup_environment_config, h]

/-- C6 witness: a no-GUI snapshot forces headless even when the caller
requests headless = false. -/
theorem C6_forced_headless_witness :
    (setup_environment_config c6env { headless := false }).headless = true :=
  C6_forced_headless c6env { headless := false } rfl

/-- Helper: characterization of the wait loop entered at index i and
elapsed time e with enough fuel: it returns true exactly when some later
poll within the remaining budget observes logged-in. -/
theorem waitLoop_true_iff (poll : Nat → Except Unit Bool) (t : Nat) :
    ∀ fuel i e, t ≤ e + 2 * fuel →
    (waitLoop poll t 2 fuel i e = true
      ↔ ∃ k, e + 2 * k < t ∧ poll (i + k) = .ok true) := by
  intro fuel
  induction fuel with
  | zero =>
    intro i e ht
    constructor
    · intro h; exact absurd h (by simp [waitLoop])
    · rintro ⟨k, hk, _⟩; omega
  | succ fuel ih =>
    intro i e ht
    by_cases he : e < t
    · rw [waitLoop, if_pos he]
      cases hp : poll i with
      | ok b =>
        cases b
        · rw [ih (i + 1) (e + 2) (by omega)]
          constructor
          · rintro ⟨k, hk, hpk⟩
            have hidx : i + 1 + k = i + (k + 1) := by omega
            rw [hidx] at hpk
            exact ⟨k + 1, by omega, hpk⟩
          · rintro ⟨k, hk, hpk⟩
            match k, hk, hpk with
            | 0, hk, hpk =>
              rw [Nat.add_zero] at hpk
              rw [hp] at hpk
              cases hpk
            | k + 1, hk, hpk =>
              have hidx : i + (k + 1) = i + 1 + k := by omega
              rw [hidx] at hpk
              exact ⟨k, by omega, hpk⟩
        · simp only []
          constructor
          · intro _
            exact ⟨0, by omega, by simpa using hp⟩
          · intro _; trivial
      | error u =>
        rw [ih (i + 1) (e + 2) (by omega)]
        constructor
        · rintro ⟨k, hk, hpk⟩
          have hidx : i + 1 + k = i + (k + 1) := by omega
          rw [hidx] at hpk
          exact ⟨k + 1, by omega, hpk⟩
        · rintro ⟨k, hk, hpk⟩
          match k, hk, hpk with
          | 0, hk, hpk =>
            rw [Nat.add_zero] at hpk
            rw [hp] at hpk
            cases hpk
          | k + 1, hk, hpk =>
            have hidx : i + (k + 1) = i + 1 + k := by omega
            rw [hidx] at hpk
            exact ⟨k, by omega, hpk⟩
    · rw [waitLoop, if_neg he]
      constructor
      · intro h; cases h
      · rintro ⟨k, hk, _⟩; omega

/-- C7: wait_for_login is a bounded polling loop with fixed 2-second
interval: it returns true exactly when some poll made within the timeout
budget (the k-th poll happens at elapsed time 2k) observes the logged-in
status; otherwise it returns false once the timeout elapses — it never
raises, its result being a total boolean; and a poll that raises is
treated exactly like a transient logged-out reading, so the loop
continues: the result coincides with that of the loop run on the
logged-in readings alone. -/
theorem C7_wait_for_login (poll : Nat → Except Unit Bool) (t : Nat) :
    (wait_for_login poll t = true ↔ ∃ k, 2 * k < t ∧ poll k = .ok true)
    ∧ wait_for_login poll t
        = wait_for_login (fun i => .ok (pollReading (poll i))) t := by
  have hchar : wait_for_login poll t = true
      ↔ ∃ k, 2 * k < t ∧ poll k = .ok true := by
    rw [wait_for_login, waitLoop_true_iff poll t (t + 1) 0 0 (by omega)]
    constructor
    · rintro ⟨k, hk, hp⟩
      exact ⟨k, by omega, by simpa using hp⟩
    · rintro ⟨k, hk, hp⟩
      exact ⟨k, by omega, by simpa using hp⟩
  have hchar2 : wait_for_login (fun i => .ok (pollReading (poll i))) t = true
      ↔ ∃ k, 2 * k < t ∧ poll k = .ok true := by
    rw [wait_for_login,
      waitLoop_true_iff (fun i => .ok (pollReading (poll i))) t (t + 1) 0 0 (by omega)]
    constructor
    · rintro ⟨k, hk, hp⟩
      refine ⟨k, by omega, ?_⟩
      simp only [Nat.zero_add] at hp
      cases hq : poll k with
      | ok b =>
        cases b
        · rw [hq] at hp; simp [pollReading] at hp
        · rfl
      | error u => rw [hq] at hp; simp [pollReading] at hp
    · rintro ⟨k, hk, hp⟩
      exact ⟨k, by omega, by simp [pollReading, hp]⟩
  refine ⟨hchar, ?_⟩
  cases hb : wait_for_login poll t with
  | true =>
    have := hchar2.mpr (hchar.mp hb)
    exact this.symm
  | false =>
    cases hb2 : wait_for_login (fun i => .ok (pollReading (poll i))) t with
    | true =>
      have := hchar.mpr (hchar2.mp hb2)
      rw [hb] at this
      cases this
    | false => rfl

/-- Helper: after cleanup the driver handle is nulled and the recorded
user-data directory is cleared. -/
theorem cleanup_clears (s : CleanupState) (q : Bool) :
    (cleanup s q).driver = false ∧ (cleanup s q).temp_user_data_dir = none := by
  rcases s with ⟨sd, st, dirs⟩
  cases sd <;> rcases st with _ | d <;> simp [cleanup] <;> split <;> simp

/-- Helper: with no recorded user-data directory, cleanup leaves the disk
untouched. -/
theorem cleanup_dirs_none (s : CleanupState) (q : Bool)
    (h : s.temp_user_data_dir = none) : (cleanup s q).dirs = s.dirs := by
  rcases s with ⟨sd, st, dirs⟩
  simp only at h
  subst h
  cases sd <;> rfl

/-- Helper: with a recorded user-data directory d, cleanup removes d from
disk exactly when d is non-empty and does not end with the persistent
suffix, and otherwise leaves the disk untouched. -/
theorem cleanup_dirs_some (s : CleanupState) (q : Bool) (d : String)
    (h : s.temp_user_data_dir = some d) :
    (cleanup s q).dirs =
      if !(d == "") && !(str_ends_with d persistent_suffix) then
        s.dirs.filter (fun p => p != d)
      else s.dirs := by
  rcases s with ⟨sd, st, dirs⟩
  simp only at h
  subst h
  cases sd <;>
    by_cases hcond : (!(d == "") && !(str_ends_with d persistent_suffix)) = true <;>
      simp [cleanup, hcond]

/-- C8: cleanup never raises (it is a total state transformer, every
internal exception — including a failing driver.quit — being handled, so
its result does not depend on whether quit fails), it is idempotent (after
the first call the driver handle is null and the second call is the
identity), and it preserves every directory ending in the persistent
profile suffix both times; a directory is deleted only when it is the
recorded genuinely temporary user-data directory, which never carries the
persistent suffix. -/
theorem C8_cleanup (s : CleanupState) (q q2 : Bool) :
    (cleanup s q).driver = false
    ∧ cleanup (cleanup s q) q2 = cleanup s q
    ∧ cleanup s q = cleanup s q2
    ∧ (∀ p, p ∈ s.dirs → str_ends_with p persistent_suffix = true →
        p ∈ (cleanup s q).dirs ∧ p ∈ (cleanup (cleanup s q) q2).dirs)
    ∧ (∀ p, p ∈ s.dirs → p ∉ (cleanup s q).dirs →
        s.temp_user_data_dir = some p
        ∧ str_ends_with p persistent_suffix = false) := by
  obtain ⟨hd, ht⟩ := cleanup_clears s q
  have hid : cleanup (cleanup s q) q2 = cleanup s q := by
    rcases hc : cleanup s q with ⟨cd, ct, cD⟩
    rw [hc] at hd ht
    simp only at hd ht
    subst hd; subst ht
    rfl
  have hq : cleanup s q = cleanup s q2 := rfl
  refine ⟨hd, hid, hq, ?_, ?_⟩
  · intro p hp hsuf
    have hmem : p ∈ (cleanup s q).dirs := by
      rcases st : s.temp_user_data_dir with _ | d
      · rw [cleanup_dirs_none s q st]
        exact hp
      · rw [cleanup_dirs_some s q d st]
        by_cases hcond : (!(d == "") && !(str_ends_with d persistent_suffix)) = true
        · rw [if_pos hcond]
          refine List.mem_filter.mpr ⟨hp, ?_⟩
          simp only [Bool.and_eq_true, Bool.not_eq_true'] at hcond
          have hpd : ¬p = d := by
            intro hpd
            rw [hpd] at hsuf
            rw [hsuf] at hcond
            simp at hcond
          simpa [bne] using hpd
        · rw [if_neg hcond]
          exact hp
    exact ⟨hmem, by rw [hid]; exact hmem⟩
  · intro p hp hnot
    rcases st : s.temp_user_data_dir with _ | d
    · rw [cleanup_dirs_none s q st] at hnot
      exact absurd hp hnot
    · rw [cleanup_dirs_some s q d st] at hnot
      by_cases hcond : (!(d == "") && !(str_ends_with d persistent_suffix)) = true
      · rw [if_pos hcond] at hnot
        simp only [Bool.and_eq_true, Bool.not_eq_true'] at hcond
        by_cases hpd : p = d
        · subst hpd
          exact ⟨rfl, hcond.2⟩
        · exact absurd (List.mem_filter.mpr ⟨hp, by simpa [bne] using hpd⟩) hnot
      · rw [if_neg hcond] at hnot
        exact absurd hp hnot

/-- C8 witness: on a state holding a live driver and the persistent
profile directory, cleanup with a failing quit nulls the driver, a second
cleanup is the identity, and the persistent profile directory survives
both calls. -/
theorem C8_cleanup_witness :
    (cleanup c8state true).driver = false
    ∧ cleanup (cleanup c8state true) false = cleanup c8state true
    ∧ "/tmp/xiaohongshu_chrome_persistent" ∈ (cleanup c8state true).dirs := by
  obtain ⟨h1, h2, h3, h4, h5⟩ := C8_cleanup c8state true false
  exact ⟨h1, h2, (h4 _ (by simp [c8state]) (by decide)).1⟩

end McpXhs
